import Mathlib

/-!
Verification of the WebSocket protocol core of WS-Server-Client-Hub.

The definitions below are a shallow embedding of the hand-rolled WebSocket
layer found in `src/WS_Server.py`, `src/simple_ws_server.py` and
`src/simple_ws_client.py`.  Bytes are modelled as `ℕ` (values below 256 on
the wire), byte strings as `List ℕ`, and every Python length guard
(`if len(data) < n: return None`) becomes either an explicit length test or
an incomplete pattern match falling through to `none`.  Python bitwise
operations on bytes are translated arithmetically: `x & 0x0f` is `x % 16`,
`x & 0x7f` is `x % 128`, and `(x >> 7) & 1` is `x / 128 % 2` (equal for all
naturals).
-/

namespace WsHub

/-- Opcode constant `WS_OPCODE_CONTINUATION = 0x0` from `src/WS_Server.py`. -/
def WS_OPCODE_CONTINUATION : ℕ := 0x0

/-- Opcode constant `WS_OPCODE_TEXT = 0x1` from `src/WS_Server.py`. -/
def WS_OPCODE_TEXT : ℕ := 0x1

/-- Opcode constant `WS_OPCODE_BINARY = 0x2` from `src/WS_Server.py`. -/
def WS_OPCODE_BINARY : ℕ := 0x2

/-- Opcode constant `WS_OPCODE_CLOSE = 0x8` from `src/WS_Server.py`. -/
def WS_OPCODE_CLOSE : ℕ := 0x8

/-- Opcode constant `WS_OPCODE_PING = 0x9` from `src/WS_Server.py`. -/
def WS_OPCODE_PING : ℕ := 0x9

/-- Opcode constant `WS_OPCODE_PONG = 0xa` from `src/WS_Server.py`. -/
def WS_OPCODE_PONG : ℕ := 0xa

/-- Big-endian 16-bit read, `struct.unpack('>H', ...)` applied to two bytes. -/
def unpack16 (b0 b1 : ℕ) : ℕ := b0 * 256 + b1

/-- Big-endian 64-bit read, `struct.unpack('>Q', ...)` applied to eight bytes. -/
def unpack64 (b0 b1 b2 b3 b4 b5 b6 b7 : ℕ) : ℕ :=
  ((((((b0 * 256 + b1) * 256 + b2) * 256 + b3) * 256 + b4) * 256 + b5) * 256 + b6) * 256 + b7

/-- Big-endian 16-bit write, `struct.pack('>H', n)` (defined for `n < 65536`). -/
def pack16 (n : ℕ) : List ℕ := [n / 256 % 256, n % 256]

/-- Big-endian 64-bit write, `struct.pack('>Q', n)` (defined for `n < 2^64`). -/
def pack64 (n : ℕ) : List ℕ :=
  [n / 2 ^ 56 % 256, n / 2 ^ 48 % 256, n / 2 ^ 40 % 256, n / 2 ^ 32 % 256,
   n / 2 ^ 24 % 256, n / 2 ^ 16 % 256, n / 2 ^ 8 % 256, n % 256]

/-- The XOR masking loop shared by `parse_websocket_frame` (unmasking,
`src/WS_Server.py` lines 87-93), `decode_frame` (`src/simple_ws_server.py`
lines 110-117) and `create_frame` (masking, `src/simple_ws_client.py` lines
119-127): byte `i` of the payload is XOR-ed with `key[i % 4]`.  The index
argument carries the current value of the loop variable `i`. -/
def maskCycle (key : List ℕ) (i : ℕ) : List ℕ → List ℕ
  | [] => []
  | b :: rest => (b ^^^ key.getD (i % 4) 0) :: maskCycle key (i + 1) rest

/-- The extended payload length block that appears verbatim in all three
source decoders (`src/WS_Server.py` lines 59-69, `src/simple_ws_server.py`
lines 83-94, `src/simple_ws_client.py` lines 156-167): a 7-bit length of 126
selects a big-endian 16-bit length, 127 selects a big-endian 64-bit length,
anything smaller is the length itself.  Returns the payload length together
with the bytes following the length field, or `none` when the buffer ends
inside the extended length field (the sources' `if len(data) < ...: return
None` guards). -/
def readExtendedLength (len0 : ℕ) (rest : List ℕ) : Option (ℕ × List ℕ) :=
  if len0 = 126 then
    match rest with
    | e0 :: e1 :: rest2 => some (unpack16 e0 e1, rest2)
    | _ => none
  else if len0 = 127 then
    match rest with
    | e0 :: e1 :: e2 :: e3 :: e4 :: e5 :: e6 :: e7 :: rest2 =>
        some (unpack64 e0 e1 e2 e3 e4 e5 e6 e7, rest2)
    | _ => none
  else some (len0, rest)

/-- Embedding of `parse_websocket_frame` (`src/WS_Server.py` lines 42-95).
`data[0]` and `data[1]` become the matched head bytes (the source's
`len(data) < 2` guard is the fall-through case); `opcode = first_byte & 0x0f`,
`masked = (second_byte >> 7) & 1`, `payload_length = second_byte & 0x7f`.
After the length field, a masked frame requires 4 masking-key bytes, and the
final guard `len(data) < offset + payload_length` becomes a length test on
the remaining bytes.  Returns `(opcode, payload)` as the source does (the
`fin` bit is computed but unused in the source). -/
def parseWebsocketFrame (data : List ℕ) : Option (ℕ × List ℕ) :=
  match data with
  | b0 :: b1 :: rest =>
    let opcode := b0 % 16
    let masked := b1 / 128 % 2
    match readExtendedLength (b1 % 128) rest with
    | none => none
    | some (plen, rest2) =>
      if masked = 1 then
        match rest2 with
        | m0 :: m1 :: m2 :: m3 :: rest3 =>
          if rest3.length < plen then none
          else some (opcode, maskCycle [m0, m1, m2, m3] 0 (rest3.take plen))
        | _ => none
      else
        if rest2.length < plen then none
        else some (opcode, rest2.take plen)
  | _ => none

/-- Embedding of `create_websocket_frame` (`src/WS_Server.py` lines 97-118):
first byte `0x80 | opcode` (FIN set, no RSV), then the 7-bit length for
payloads shorter than 126 bytes, the marker 126 plus a big-endian 16-bit
length below 65536, or the marker 127 plus a big-endian 64-bit length; then
the payload.  No mask is applied (server role). -/
def createWebsocketFrame (opcode : ℕ) (payload : List ℕ) : List ℕ :=
  if payload.length < 126 then
    (128 ||| opcode) :: payload.length :: payload
  else if payload.length < 65536 then
    (128 ||| opcode) :: 126 :: (pack16 payload.length ++ payload)
  else
    (128 ||| opcode) :: 127 :: (pack64 payload.length ++ payload)

/-- A decoded frame as returned by `decode_frame` in `src/simple_ws_server.py`
(lines 119-124) and `src/simple_ws_client.py` (lines 176-181): the dict
`{'fin': ..., 'opcode': ..., 'payload': ..., 'payload_length': ...}`. -/
structure WsFrame where
  fin : ℕ
  opcode : ℕ
  payload : List ℕ
  payloadLength : ℕ
deriving DecidableEq, Repr

/-- Embedding of `SimpleWebSocketServer.decode_frame`
(`src/simple_ws_server.py` lines 68-124).  Structurally identical to
`parse_websocket_frame` (the two sources duplicate the logic), but it also
returns the `fin` bit and the decoded payload length. -/
def simpleServerDecodeFrame (data : List ℕ) : Option WsFrame :=
  match data with
  | b0 :: b1 :: rest =>
    let fin := b0 / 128 % 2
    let opcode := b0 % 16
    let masked := b1 / 128 % 2
    match readExtendedLength (b1 % 128) rest with
    | none => none
    | some (plen, rest2) =>
      if masked = 1 then
        match rest2 with
        | m0 :: m1 :: m2 :: m3 :: rest3 =>
          if rest3.length < plen then none
          else some ⟨fin, opcode, maskCycle [m0, m1, m2, m3] 0 (rest3.take plen), plen⟩
        | _ => none
      else
        if rest2.length < plen then none
        else some ⟨fin, opcode, rest2.take plen, plen⟩
  | _ => none

/-- Embedding of `SimpleWebSocketClient.decode_frame`
(`src/simple_ws_client.py` lines 135-181).  It reads the mask bit but,
unlike the two server-side decoders, neither skips a masking key nor
unmasks: the payload is taken directly after the length field. -/
def simpleClientDecodeFrame (data : List ℕ) : Option WsFrame :=
  match data with
  | b0 :: b1 :: rest =>
    let fin := b0 / 128 % 2
    let opcode := b0 % 16
    match readExtendedLength (b1 % 128) rest with
    | none => none
    | some (plen, rest2) =>
      if rest2.length < plen then none
      else some ⟨fin, opcode, rest2.take plen, plen⟩
  | _ => none

/-- The number of bytes one complete frame occupies in `data`, i.e. the
source's final `offset + payload_length` (`src/WS_Server.py` line 81):
header bytes consumed by the length field, plus 4 masking-key bytes when the
mask bit is set, plus the declared payload length.  Meaningful whenever the
buffer reaches past the length field (the cases `parse_websocket_frame`
derives a declared length for); 0 otherwise. -/
def wsConsumed (data : List ℕ) : ℕ :=
  match data with
  | _ :: b1 :: rest =>
    let masked := b1 / 128 % 2
    match readExtendedLength (b1 % 128) rest with
    | some (plen, rest2) => (data.length - rest2.length) + 4 * masked + plen
    | none => 0
  | _ => 0

/-- One observable action of a server's per-frame dispatch.  The
constructors cover everything either server's dispatch does with a decoded
frame: deliver a text/binary payload to the application (print/log), send a
frame back on the socket, log a ping or pong, act on a close, warn about an
unknown opcode, or do nothing at all. -/
inductive ServerAction where
  | deliverText (payload : List ℕ)
  | deliverBinary (payload : List ℕ)
  | sendFrame (bytes : List ℕ)
  | logPing
  | logPong
  | closeConn
  | warnUnknown (opcode : ℕ)
  | ignored
deriving DecidableEq, Repr

/-- Embedding of the per-frame dispatch in `WebSocketServer.handle_client`
(`src/WS_Server.py` lines 217-247): text and binary payloads are delivered,
a ping is answered by `send_pong` which sends
`create_websocket_frame(WS_OPCODE_PONG, payload)` (lines 181-188, 233-235),
a pong is logged, a close breaks the loop, and any other opcode hits the
`else` branch that logs "Unknown opcode received". -/
def handleFrameWS (opcode : ℕ) (payload : List ℕ) : ServerAction :=
  if opcode = WS_OPCODE_TEXT then .deliverText payload
  else if opcode = WS_OPCODE_BINARY then .deliverBinary payload
  else if opcode = WS_OPCODE_PING then .sendFrame (createWebsocketFrame WS_OPCODE_PONG payload)
  else if opcode = WS_OPCODE_PONG then .logPong
  else if opcode = WS_OPCODE_CLOSE then .closeConn
  else .warnUnknown opcode

/-- Embedding of the per-frame dispatch in
`SimpleWebSocketServer.handle_client` (`src/simple_ws_server.py` lines
146-159): an `if/elif` chain over opcodes 1, 2, 8, 9, 10 with no `else`
branch.  A ping is only printed (no pong is sent), and a frame with any
other opcode falls through the whole chain without any action. -/
def simpleHandleFrame (opcode : ℕ) (payload : List ℕ) : ServerAction :=
  if opcode = 1 then .deliverText payload
  else if opcode = 2 then .deliverBinary payload
  else if opcode = 8 then .closeConn
  else if opcode = 9 then .logPing
  else if opcode = 10 then .logPong
  else .ignored

/-- Embedding of the read loop of `WebSocketServer.handle_client`
(`src/WS_Server.py` lines 203-254) over a list of transport reads: each
iteration receives one chunk (`recv(4096)`), breaks on an empty read,
parses THAT CHUNK ALONE with `parse_websocket_frame`, logs and `continue`s
when the parse yields no frame (the chunk's bytes are discarded — there is
no carry-over buffer in the source), otherwise dispatches the frame and
breaks after a close frame. -/
def serverReadLoop : List (List ℕ) → List ServerAction
  | [] => []
  | chunk :: rest =>
    if chunk = [] then []
    else
      match parseWebsocketFrame chunk with
      | none => serverReadLoop rest
      | some (op, pl) =>
        if op = WS_OPCODE_CLOSE then [handleFrameWS op pl]
        else handleFrameWS op pl :: serverReadLoop rest

/-- The global client registry `connected_clients` of `src/WS_Server.py`
(line 33) is a Python `set`; connections are modelled by their identity as a
natural number.  `register_client` (lines 165-171) does `connected_clients.add`. -/
def registerClient (clients : Finset ℕ) (c : ℕ) : Finset ℕ := insert c clients

/-- `unregister_client` (`src/WS_Server.py` lines 173-179) does
`connected_clients.discard`, which removes the element when present and is a
no-op otherwise. -/
def unregisterClient (clients : Finset ℕ) (c : ℕ) : Finset ℕ := clients.erase c

/-- A mutation of the client registry. -/
inductive RegistryEvent where
  | register
  | deregister
deriving DecidableEq, Repr

/-- The sequence of registry mutations one run of
`WebSocketServer.handle_client` (`src/WS_Server.py` lines 190-263) performs,
as a function of whether the handshake succeeded: on handshake failure the
handler returns before `register_client` (lines 194-197), but the `return`
sits inside the `try`, so the `finally` block (line 259) still runs and
calls `unregister_client` — a no-op `discard` since the connection was never
added; on success the handler registers exactly once (line 200) and the
`finally` block unregisters unconditionally on every exit path of the frame
loop (clean close, empty read, socket error, or exception). -/
def handleClientRegistryEvents (handshakeOk : Bool) : List RegistryEvent :=
  if handshakeOk then [.register, .deregister] else [.deregister]

/-- The WebSocket GUID `WS_MAGIC_STRING` (`src/WS_Server.py` line 11); the
same literal appears in `generate_accept_key` (`src/simple_ws_server.py`
line 26) and `verify_handshake_response` (`src/simple_ws_client.py` line 75). -/
def WS_MAGIC_STRING : String := "258EAFA5-E914-47DA-95CA-C5AB0DC85B11"

/-- Big-endian 32-bit write of `n % 2^32` as four bytes. -/
def pack32 (n : ℕ) : List ℕ := [n / 2 ^ 24 % 256, n / 2 ^ 16 % 256, n / 2 ^ 8 % 256, n % 256]

/-- 32-bit left rotation by `n` places of a word `x < 2^32`. -/
def rotl32 (n x : ℕ) : ℕ := (x * 2 ^ n + x / 2 ^ (32 - n)) % 4294967296

/-- SHA-1 round function: choice, parity, majority, parity over the four
20-round groups (`hashlib.sha1` semantics, FIPS 180-4). -/
def sha1F (t b c d : ℕ) : ℕ :=
  if t < 20 then (b &&& c) ||| ((b ^^^ 4294967295) &&& d)
  else if t < 40 then b ^^^ c ^^^ d
  else if t < 60 then (b &&& c) ||| (b &&& d) ||| (c &&& d)
  else b ^^^ c ^^^ d

/-- SHA-1 round constants over the four 20-round groups. -/
def sha1K (t : ℕ) : ℕ :=
  if t < 20 then 0x5A827999
  else if t < 40 then 0x6ED9EBA1
  else if t < 60 then 0x8F1BBCDC
  else 0xCA62C1D6

/-- SHA-1 padding: append `0x80`, zero bytes up to 56 mod 64, then the
message bit length as a big-endian 64-bit value. -/
def sha1Pad (msg : List ℕ) : List ℕ :=
  msg ++ 0x80 :: List.replicate ((119 - msg.length % 64) % 64) 0 ++ pack64 (msg.length * 8)

/-- Group a 64-byte block into sixteen big-endian 32-bit words. -/
def sha1Words16 : List ℕ → List ℕ
  | a :: b :: c :: d :: rest => (((a * 256 + b) * 256 + c) * 256 + d) :: sha1Words16 rest
  | _ => []

/-- One step of the SHA-1 message schedule: append
`rotl1 (w[t-3] xor w[t-8] xor w[t-14] xor w[t-16])`. -/
def sha1ExtendStep (w : List ℕ) : List ℕ :=
  let l := w.length
  w ++ [rotl32 1 (w.getD (l - 3) 0 ^^^ w.getD (l - 8) 0 ^^^ w.getD (l - 14) 0 ^^^ w.getD (l - 16) 0)]

/-- Iterate the schedule extension `n` times (64 times grows 16 words to 80). -/
def sha1Schedule (w : List ℕ) : ℕ → List ℕ
  | 0 => w
  | n + 1 => sha1Schedule (sha1ExtendStep w) n

/-- One SHA-1 compression round on the state `(a, b, c, d, e)` given the
round index and schedule word. -/
def sha1Step (st : ℕ × ℕ × ℕ × ℕ × ℕ) (p : ℕ × ℕ) : ℕ × ℕ × ℕ × ℕ × ℕ :=
  match st, p with
  | (a, b, c, d, e), (t, wt) =>
    ((rotl32 5 a + sha1F t b c d + e + sha1K t + wt) % 4294967296, a, rotl32 30 b, c, d)

/-- SHA-1 compression of one 64-byte block into the running hash state. -/
def sha1Compress (h : ℕ × ℕ × ℕ × ℕ × ℕ) (block : List ℕ) : ℕ × ℕ × ℕ × ℕ × ℕ :=
  match h with
  | (h0, h1, h2, h3, h4) =>
    let w := sha1Schedule (sha1Words16 block) 64
    match w.enum.foldl sha1Step (h0, h1, h2, h3, h4) with
    | (a, b, c, d, e) =>
      ((h0 + a) % 4294967296, (h1 + b) % 4294967296, (h2 + c) % 4294967296,
       (h3 + d) % 4294967296, (h4 + e) % 4294967296)

/-- Fold the compression over consecutive 64-byte blocks; the first argument
is fuel (structural recursion so that the kernel can evaluate it), passed as
the exact number of 64-byte blocks. -/
def sha1Blocks : ℕ → ℕ × ℕ × ℕ × ℕ × ℕ → List ℕ → ℕ × ℕ × ℕ × ℕ × ℕ
  | 0, h, _ => h
  | _, h, [] => h
  | n + 1, h, bs => sha1Blocks n (sha1Compress h (bs.take 64)) (bs.drop 64)

/-- SHA-1 digest (20 bytes) of a byte string, modelling
`hashlib.sha1(...).digest()`. -/
def sha1 (msg : List ℕ) : List ℕ :=
  let padded := sha1Pad msg
  match sha1Blocks (padded.length / 64)
      (0x67452301, 0xEFCDAB89, 0x98BADCFE, 0x10325476, 0xC3D2E1F0) padded with
  | (h0, h1, h2, h3, h4) => pack32 h0 ++ pack32 h1 ++ pack32 h2 ++ pack32 h3 ++ pack32 h4

/-- The base64 alphabet. -/
def base64Chars : List Char :=
  "ABCDEFGHIJKLMNOPQRSTUVWXYZabcdefghijklmnopqrstuvwxyz0123456789+/".toList

/-- Standard base64 encoding with '=' padding, modelling
`base64.b64encode`. -/
def base64EncodeList : List ℕ → List Char
  | a :: b :: c :: rest =>
    let n := (a * 256 + b) * 256 + c
    base64Chars.getD (n / 262144 % 64) 'A' :: base64Chars.getD (n / 4096 % 64) 'A' ::
      base64Chars.getD (n / 64 % 64) 'A' :: base64Chars.getD (n % 64) 'A' ::
      base64EncodeList rest
  | [a, b] =>
    let n := (a * 256 + b) * 256
    [base64Chars.getD (n / 262144 % 64) 'A', base64Chars.getD (n / 4096 % 64) 'A',
     base64Chars.getD (n / 64 % 64) 'A', '=']
  | [a] =>
    let n := a * 65536
    [base64Chars.getD (n / 262144 % 64) 'A', base64Chars.getD (n / 4096 % 64) 'A', '=', '=']
  | [] => []

/-- `base64.b64encode(...).decode('utf-8')` as a `String`. -/
def base64Encode (bs : List ℕ) : String := String.mk (base64EncodeList bs)

/-- The UTF-8 bytes of an ASCII string (`.encode('utf-8')`); WebSocket keys
and the magic GUID are ASCII, where UTF-8 bytes coincide with code points. -/
def strBytes (s : String) : List ℕ := s.toList.map Char.toNat

/-- Embedding of `create_websocket_accept_key` (`src/WS_Server.py` lines
36-40): append the magic GUID to the client key, SHA-1 it, base64 the
digest. -/
def createWebsocketAcceptKey (websocketKey : String) : String :=
  base64Encode (sha1 (strBytes (websocketKey ++ WS_MAGIC_STRING)))

/-- Embedding of `SimpleWebSocketServer.generate_accept_key`
(`src/simple_ws_server.py` lines 24-29); same construction with the magic
string as a local literal. -/
def generateAcceptKey (websocketKey : String) : String :=
  let magicString : String := "258EAFA5-E914-47DA-95CA-C5AB0DC85B11"
  base64Encode (sha1 (strBytes (websocketKey ++ magicString)))

/-- The expected accept key recomputed by
`SimpleWebSocketClient.verify_handshake_response`
(`src/simple_ws_client.py` lines 75-77). -/
def clientExpectedAccept (websocketKey : String) : String :=
  let magicString : String := "258EAFA5-E914-47DA-95CA-C5AB0DC85B11"
  base64Encode (sha1 (strBytes (websocketKey ++ magicString)))

/-- `request.split('\r\n')`: split a character sequence on CRLF separators
(leftmost-first, non-overlapping, like Python's `str.split`). -/
def splitLines : List Char → List (List Char)
  | [] => [[]]
  | '\r' :: '\n' :: rest => [] :: splitLines rest
  | c :: rest =>
    match splitLines rest with
    | [] => [[c]]
    | l :: ls => (c :: l) :: ls

/-- Python's `str.strip()` over the whitespace that can occur in a header
line: drop spaces, tabs, CR and LF from both ends. -/
def isSpaceChar (c : Char) : Bool := c == ' ' || c == '\t' || c == '\n' || c == '\r'

/-- `line.strip()` as used on the extracted key. -/
def stripChars (s : List Char) : List Char :=
  ((s.dropWhile isSpaceChar).reverse.dropWhile isSpaceChar).reverse

/-- `line.split(':', 1)[1]`: everything after the first colon, `none` when
the line has no colon (Python would raise `IndexError`). -/
def afterColon : List Char → Option (List Char)
  | [] => none
  | c :: rest => if c = ':' then some rest else afterColon rest

/-- `line.split(': ')`: split on the two-character separator `": "`. -/
def splitOnColonSpace : List Char → List (List Char)
  | [] => [[]]
  | ':' :: ' ' :: rest => [] :: splitOnColonSpace rest
  | c :: rest =>
    match splitOnColonSpace rest with
    | [] => [[c]]
    | l :: ls => (c :: l) :: ls

/-- The matching test of `WebSocketServer.perform_websocket_handshake`
(`src/WS_Server.py` line 137): `line.lower().startswith('sec-websocket-key:')`
(`Char.toLower` lowercases exactly the basic latin letters, as Python does
on the ASCII header text). -/
def lowerKeyLineTest (line : List Char) : Bool :=
  List.isPrefixOf ("sec-websocket-key:".data) (line.map Char.toLower)

/-- The key extraction loop of `WebSocketServer.perform_websocket_handshake`
(`src/WS_Server.py` lines 134-139): split the request on CRLF, take the
first line matching case-insensitively, and return everything after the
first colon, stripped (`line.split(':', 1)[1].strip()`; a line with no
colon would raise, caught as handshake failure). -/
def findWebsocketKey (request : List Char) : Option (List Char) :=
  ((splitLines request).find? lowerKeyLineTest).bind
    (fun line => (afterColon line).map stripChars)

/-- The response side of `WebSocketServer.perform_websocket_handshake`
(`src/WS_Server.py` lines 141-159): `none` models returning `False` with no
101 response sent.  The `if not websocket_key:` guard (line 141) fails both
when no line matched (`None`, here the `none` branch) and when the
extracted key is the empty string (falsy in Python, here the `key = []`
test); otherwise the literal 101 response text with the computed accept
key is sent. -/
def performWebsocketHandshake (request : List Char) : Option (List Char) :=
  match findWebsocketKey request with
  | none => none
  | some key =>
      if key = [] then none
      else
        some (("HTTP/1.1 101 Switching Protocols\r\nUpgrade: websocket\r\nConnection: Upgrade\r\nSec-WebSocket-Accept: ").data
          ++ (createWebsocketAcceptKey (String.mk key)).data ++ ("\r\n\r\n").data)

/-- The matching test of `SimpleWebSocketServer.perform_handshake`
(`src/simple_ws_server.py` line 42): `line.startswith('Sec-WebSocket-Key:')`
— CASE-SENSITIVE, unlike `WS_Server.py`. -/
def simpleKeyLineTest (line : List Char) : Bool :=
  List.isPrefixOf ("Sec-WebSocket-Key:".data) line

/-- The key extraction loop of `SimpleWebSocketServer.perform_handshake`
(`src/simple_ws_server.py` lines 38-48): case-sensitive match, and the key
is `line.split(': ')[1]`, whose `IndexError` (no `': '` in the line) is
caught by the surrounding `except` and turns into handshake failure —
hence the `Option.bind` through the second split component. -/
def simpleFindWebsocketKey (request : List Char) : Option (List Char) :=
  ((splitLines request).find? simpleKeyLineTest).bind
    (fun line => (splitOnColonSpace line).get? 1)

/-- The response side of `SimpleWebSocketServer.perform_handshake`
(`src/simple_ws_server.py` lines 46-62): `none` models returning `False`
with no 101 response sent.  The `if not websocket_key:` guard (line 46)
fails both when no line matched and when the extracted key is the empty
string (falsy in Python, here the `key = []` test). -/
def simplePerformHandshake (request : List Char) : Option (List Char) :=
  match simpleFindWebsocketKey request with
  | none => none
  | some key =>
      if key = [] then none
      else
        some (("HTTP/1.1 101 Switching Protocols\r\nUpgrade: websocket\r\nConnection: Upgrade\r\nSec-WebSocket-Accept: ").data
          ++ (generateAcceptKey (String.mk key)).data ++ ("\r\n\r\n").data)

/-! ### Helper lemmas -/

/-- For a 4-bit opcode, `0x80 | opcode` is `128 + opcode`. -/
theorem lor128_eq (op : ℕ) (hop : op < 16) : 128 ||| op = 128 + op := by
  interval_cases op <;> rfl

/-- Applying the XOR mask cycle twice with the same key restores the bytes,
from any starting index. -/
theorem maskCycle_involutive (key : List ℕ) (i : ℕ) (p : List ℕ) :
    maskCycle key i (maskCycle key i p) = p := by
  induction p generalizing i with
  | nil => rfl
  | cons b rest ih =>
      simp only [maskCycle, ih]
      rw [Nat.xor_assoc, Nat.xor_self, Nat.xor_zero]

/-- The XOR mask cycle preserves the payload length. -/
theorem maskCycle_length (key : List ℕ) (i : ℕ) (p : List ℕ) :
    (maskCycle key i p).length = p.length := by
  induction p generalizing i with
  | nil => rfl
  | cons b rest ih => simp [maskCycle, ih]

/-- Round trip of the server-role codec: parsing an encoded frame returns
the opcode and payload unchanged, for any 4-bit opcode and any payload
short enough for the 64-bit length field. -/
theorem parse_create (op : ℕ) (p : List ℕ) (hop : op < 16) (hp : p.length < 2 ^ 64) :
    parseWebsocketFrame (createWebsocketFrame op p) = some (op, p) := by
  have hmod : (128 + op) % 16 = op := by omega
  unfold createWebsocketFrame
  rw [lor128_eq op hop]
  by_cases h1 : p.length < 126
  · rw [if_pos h1]
    simp only [parseWebsocketFrame, readExtendedLength]
    have e1 : p.length % 128 = p.length := Nat.mod_eq_of_lt (by omega)
    rw [e1, if_neg (by omega : ¬ p.length = 126), if_neg (by omega : ¬ p.length = 127)]
    simp only [hmod]
    rw [if_neg (by omega : ¬ p.length / 128 % 2 = 1), if_neg (by omega : ¬ p.length < p.length),
      List.take_length]
  · rw [if_neg h1]
    by_cases h2 : p.length < 65536
    · rw [if_pos h2]
      simp only [parseWebsocketFrame, readExtendedLength, pack16, List.cons_append,
        List.nil_append]
      norm_num
      unfold unpack16
      exact ⟨by omega, hmod, by omega⟩
    · rw [if_neg h2]
      simp only [parseWebsocketFrame, readExtendedLength, pack64, List.cons_append,
        List.nil_append]
      norm_num
      unfold unpack64
      exact ⟨by omega, hmod, by omega⟩

/-- The server decoder of `src/simple_ws_server.py` agrees pointwise with
`parse_websocket_frame` of `src/WS_Server.py`: it returns exactly the same
success/failure outcome, the parsed opcode and payload, plus the fin bit
and payload length recoverable from the input. -/
theorem simpleServer_eq_map (d : List ℕ) :
    simpleServerDecodeFrame d = (parseWebsocketFrame d).map
      (fun pr => ⟨d.getD 0 0 / 128 % 2, pr.1, pr.2, pr.2.length⟩) := by
  match d with
  | [] => rfl
  | [b0] => rfl
  | b0 :: b1 :: rest =>
    simp only [simpleServerDecodeFrame, parseWebsocketFrame]
    rcases her : readExtendedLength (b1 % 128) rest with _ | ⟨plen, rest2⟩
    · simp
    · simp only []
      by_cases hm : b1 / 128 % 2 = 1
      · rw [if_pos hm, if_pos hm]
        rcases rest2 with _ | ⟨m0, _ | ⟨m1, _ | ⟨m2, _ | ⟨m3, rest3⟩⟩⟩⟩ <;> try simp
        by_cases hg : rest3.length < plen
        · rw [if_pos hg, if_pos hg]; simp
        · rw [if_neg hg, if_neg hg]
          simp [maskCycle_length, List.getD]
          omega
      · rw [if_neg hm, if_neg hm]
        by_cases hg : rest2.length < plen
        · rw [if_pos hg, if_pos hg]; simp
        · rw [if_neg hg, if_neg hg]
          simp [List.getD]
          omega

/-- On any buffer whose mask bit is clear, the client decoder of
`src/simple_ws_client.py` coincides with the server decoder of
`src/simple_ws_server.py` (the missing mask handling is only reachable on
masked input). -/
theorem client_eq_server_unmasked (d : List ℕ) (hm : d.getD 1 0 < 128) :
    simpleClientDecodeFrame d = simpleServerDecodeFrame d := by
  match d with
  | [] => rfl
  | [b0] => rfl
  | b0 :: b1 :: rest =>
    have hb1 : b1 / 128 % 2 = 0 := by
      simp only [List.getD_cons_succ, List.getD_cons_zero] at hm
      omega
    simp only [simpleClientDecodeFrame, simpleServerDecodeFrame, hb1]
    rcases her : readExtendedLength (b1 % 128) rest with _ | ⟨plen, rest2⟩ <;> simp

/-- A successful extended-length read leaves a suffix of the input. -/
theorem readExtendedLength_suffix (len0 : ℕ) (rest : List ℕ) (plen : ℕ) (rest2 : List ℕ)
    (h : readExtendedLength len0 rest = some (plen, rest2)) : rest2.length ≤ rest.length := by
  unfold readExtendedLength at h
  by_cases h126 : len0 = 126
  · rw [if_pos h126] at h
    rcases rest with _ | ⟨e0, _ | ⟨e1, rest'⟩⟩ <;> (simp_all; try omega)
  · rw [if_neg h126] at h
    by_cases h127 : len0 = 127
    · rw [if_pos h127] at h
      rcases rest with _|⟨e0,_|⟨e1,_|⟨e2,_|⟨e3,_|⟨e4,_|⟨e5,_|⟨e6,_|⟨e7,rest'⟩⟩⟩⟩⟩⟩⟩⟩ <;>
        (simp_all; try omega)
    · rw [if_neg h127] at h
      simp_all

/-- How the extended-length read behaves on a truncated input: cutting
inside the length field yields `none`; cutting after it yields the same
length and the correspondingly truncated remainder. -/
theorem readExtendedLength_take (len0 : ℕ) (rest : List ℕ) (plen : ℕ) (rest2 : List ℕ)
    (h : readExtendedLength len0 rest = some (plen, rest2)) (j : ℕ) :
    (j < rest.length - rest2.length → readExtendedLength len0 (rest.take j) = none) ∧
    (rest.length - rest2.length ≤ j →
      readExtendedLength len0 (rest.take j) =
        some (plen, rest2.take (j - (rest.length - rest2.length)))) := by
  unfold readExtendedLength at h ⊢
  by_cases h126 : len0 = 126
  · rw [if_pos h126] at h ⊢
    rcases rest with _ | ⟨e0, _ | ⟨e1, rest'⟩⟩
    · simp_all
    · simp_all
    · simp only [Option.some.injEq, Prod.mk.injEq] at h
      obtain ⟨rfl, rfl⟩ := h
      have hc : (e0 :: e1 :: rest').length - rest'.length = 2 := by
        simp only [List.length_cons]; omega
      rw [hc]
      constructor
      · intro hj
        interval_cases j <;> rfl
      · intro hj
        obtain ⟨j2, rfl⟩ : ∃ j2, j = j2 + 2 := ⟨j - 2, by omega⟩
        simp [List.take_succ_cons]
  · rw [if_neg h126] at h ⊢
    by_cases h127 : len0 = 127
    · rw [if_pos h127] at h ⊢
      rcases rest with _|⟨e0,_|⟨e1,_|⟨e2,_|⟨e3,_|⟨e4,_|⟨e5,_|⟨e6,_|⟨e7,rest'⟩⟩⟩⟩⟩⟩⟩⟩
      rotate_left 8
      · simp only [Option.some.injEq, Prod.mk.injEq] at h
        obtain ⟨rfl, rfl⟩ := h
        have hc : (e0::e1::e2::e3::e4::e5::e6::e7::rest').length - rest'.length = 8 := by
          simp only [List.length_cons]; omega
        rw [hc]
        constructor
        · intro hj
          interval_cases j <;> rfl
        · intro hj
          obtain ⟨j8, rfl⟩ : ∃ j8, j = j8 + 8 := ⟨j - 8, by omega⟩
          simp [List.take_succ_cons]
      all_goals exact absurd h (by simp)
    · rw [if_neg h127] at h ⊢
      simp only [Option.some.injEq, Prod.mk.injEq] at h
      obtain ⟨rfl, rfl⟩ := h
      exact ⟨fun hj => absurd hj (by omega), fun _ => by rw [Nat.sub_self, Nat.sub_zero]⟩

/-- Parsing fails when the extended length field is truncated. -/
theorem parse_ext_none (b0 b1 : ℕ) (l : List ℕ)
    (hre : readExtendedLength (b1 % 128) l = none) :
    parseWebsocketFrame (b0 :: b1 :: l) = none := by
  simp [parseWebsocketFrame, hre]

/-- Parsing fails when a masked frame's buffer ends inside the 4-byte
masking key. -/
theorem parse_mask_short (b0 b1 : ℕ) (l : List ℕ) (plen : ℕ) (r2 : List ℕ)
    (hre : readExtendedLength (b1 % 128) l = some (plen, r2))
    (hm : b1 / 128 % 2 = 1) (hs : r2.length < 4) :
    parseWebsocketFrame (b0 :: b1 :: l) = none := by
  rcases r2 with _ | ⟨x, _ | ⟨y, _ | ⟨z, _ | ⟨w, tl⟩⟩⟩⟩
  · simp [parseWebsocketFrame, hre, hm]
  · simp [parseWebsocketFrame, hre, hm]
  · simp [parseWebsocketFrame, hre, hm]
  · simp [parseWebsocketFrame, hre, hm]
  · simp only [List.length_cons] at hs; omega

/-- Parsing fails when a masked frame's buffer holds fewer payload bytes
than declared. -/
theorem parse_mask_guard (b0 b1 : ℕ) (l : List ℕ) (plen m0 m1 m2 m3 : ℕ) (r3 : List ℕ)
    (hre : readExtendedLength (b1 % 128) l = some (plen, m0 :: m1 :: m2 :: m3 :: r3))
    (hm : b1 / 128 % 2 = 1) (hg : r3.length < plen) :
    parseWebsocketFrame (b0 :: b1 :: l) = none := by
  simp only [parseWebsocketFrame, hre, hm, if_true]
  rw [if_pos hg]

/-- Parsing fails when an unmasked frame's buffer holds fewer payload bytes
than declared. -/
theorem parse_plain_guard (b0 b1 : ℕ) (l : List ℕ) (plen : ℕ) (r2 : List ℕ)
    (hre : readExtendedLength (b1 % 128) l = some (plen, r2))
    (hm : b1 / 128 % 2 ≠ 1) (hg : r2.length < plen) :
    parseWebsocketFrame (b0 :: b1 :: l) = none := by
  simp only [parseWebsocketFrame, hre]
  rw [if_neg hm, if_pos hg]

/-- Any strict prefix of a complete frame fails to parse: whichever field
the cut lands in (the two header bytes, the 16- or 64-bit extended length,
the masking key, or the payload), `parse_websocket_frame` returns the
no-frame result. -/
theorem parse_take_none (d : List ℕ) (op : ℕ) (pl : List ℕ)
    (h : parseWebsocketFrame d = some (op, pl)) (k : ℕ) (hk : k < wsConsumed d) :
    parseWebsocketFrame (d.take k) = none := by
  rcases d with _ | ⟨b0, _ | ⟨b1, rest⟩⟩
  · exact absurd h (by simp [parseWebsocketFrame])
  · exact absurd h (by simp [parseWebsocketFrame])
  · rcases her : readExtendedLength (b1 % 128) rest with _ | ⟨plen, rest2⟩
    · exact absurd h (by simp [parseWebsocketFrame, her])
    · have hsuf : rest2.length ≤ rest.length := readExtendedLength_suffix _ _ _ _ her
      have hcon : wsConsumed (b0 :: b1 :: rest) =
          2 + (rest.length - rest2.length) + 4 * (b1 / 128 % 2) + plen := by
        simp only [wsConsumed, her, List.length_cons]
        omega
      rw [hcon] at hk
      by_cases hk2 : k < 2
      · interval_cases k <;> rfl
      · obtain ⟨k2, rfl⟩ : ∃ k2, k = k2 + 2 := ⟨k - 2, by omega⟩
        have htake : (b0 :: b1 :: rest).take (k2 + 2) = b0 :: b1 :: rest.take k2 := by
          simp [List.take_succ_cons]
        rw [htake]
        have L3 := readExtendedLength_take _ _ _ _ her k2
        by_cases hjc : k2 < rest.length - rest2.length
        · exact parse_ext_none _ _ _ (L3.1 hjc)
        · have hsome := L3.2 (by omega)
          by_cases hm : b1 / 128 % 2 = 1
          · rw [hm] at hk
            by_cases hj4 : k2 - (rest.length - rest2.length) < 4
            · refine parse_mask_short _ _ _ _ _ hsome hm ?_
              simp only [List.length_take]
              omega
            · -- the source frame is complete, so rest2 carries the 4 mask bytes
              simp only [parseWebsocketFrame, her, hm, if_true] at h
              rcases rest2 with _ | ⟨m0, _ | ⟨m1, _ | ⟨m2, _ | ⟨m3, rest3⟩⟩⟩⟩
              · exact absurd h (by simp)
              · exact absurd h (by simp)
              · exact absurd h (by simp)
              · exact absurd h (by simp)
              · obtain ⟨j4, hj4e⟩ : ∃ j4,
                    k2 - (rest.length - (m0 :: m1 :: m2 :: m3 :: rest3).length) = j4 + 4 :=
                  ⟨k2 - (rest.length - (m0 :: m1 :: m2 :: m3 :: rest3).length) - 4, by omega⟩
                rw [hj4e] at hsome
                have hshape : (m0 :: m1 :: m2 :: m3 :: rest3).take (j4 + 4) =
                    m0 :: m1 :: m2 :: m3 :: rest3.take j4 := by
                  simp [List.take_succ_cons]
                rw [hshape] at hsome
                refine parse_mask_guard _ _ _ _ _ _ _ _ _ hsome hm ?_
                simp only [List.length_take]
                simp only [List.length_cons] at hj4e hsuf hk
                omega
          · refine parse_plain_guard _ _ _ _ _ hsome hm ?_
            simp only [List.length_take]
            omega

/-- Lowercasing a character yields a colon only for the colon itself
(`Char.toLower` only moves basic latin capitals). -/
theorem toLower_eq_colon (c : Char) (h : c.toLower = ':') : c = ':' := by
  unfold Char.toLower at h
  simp only [] at h
  split at h
  · exfalso
    rename_i hn
    obtain ⟨h1, h2⟩ := hn
    generalize hg : c.toNat = n at h1 h2 h
    interval_cases n <;> exact absurd h (by decide)
  · exact h

/-- A line containing a colon always yields a key under
`line.split(':', 1)[1]`. -/
theorem afterColon_isSome_of_mem (l : List Char) (h : (':' : Char) ∈ l) :
    (afterColon l).isSome := by
  induction l with
  | nil => simp at h
  | cons c rest ih =>
      unfold afterColon
      by_cases hc : c = ':'
      · rw [if_pos hc]; rfl
      · rw [if_neg hc]
        rcases List.mem_cons.mp h with h1 | h2
        · exact absurd h1.symm hc
        · exact ih h2

/-- A line matching the case-insensitive key-header test necessarily
contains a colon, so key extraction cannot fail on it. -/
theorem keyLineTest_afterColon (line : List Char) (h : lowerKeyLineTest line = true) :
    (afterColon line).isSome := by
  unfold lowerKeyLineTest at h
  have hpre : ("sec-websocket-key:".data) <+: line.map Char.toLower :=
    List.isPrefixOf_iff_prefix.mp h
  have hmem : (':' : Char) ∈ line.map Char.toLower := hpre.subset (by decide)
  obtain ⟨c, hc, hce⟩ := List.mem_map.mp hmem
  have hcol : c = ':' := toLower_eq_colon c hce
  subst hcol
  exact afterColon_isSome_of_mem line hc

/-! ### Claim theorems -/

/-- C1: the source read loop parses each transport read in isolation, so a
frame whose bytes are split across two reads is silently dropped: the full
byte sequence is one complete text frame, yet delivering it in two reads
produces no dispatched action at all (the claim — and the spec — require
the bytes to accumulate in a buffer so the frame is dispatched once
complete). -/
theorem single_read_drops_split_frame :
    [129] ++ [2, 104, 105] = [129, 2, 104, 105] ∧
    parseWebsocketFrame [129, 2, 104, 105] = some (1, [104, 105]) ∧
    serverReadLoop [[129], [2, 104, 105]] = [] := by
  decide

/-- C2: a buffer holding fewer bytes than one complete frame — cut anywhere
strictly before the end of the frame, including inside the 7-, 16- or
64-bit length field, inside the masking key, or inside the payload — makes
both server-side decoders return the no-frame result (`None`) rather than
fail; the embedding is total, so no out-of-bounds access exists on any
path. -/
theorem decode_incomplete_needMoreData (d : List ℕ) (op : ℕ) (pl : List ℕ)
    (h : parseWebsocketFrame d = some (op, pl)) (k : ℕ) (hk : k < wsConsumed d) :
    parseWebsocketFrame (d.take k) = none ∧ simpleServerDecodeFrame (d.take k) = none := by
  have h1 := parse_take_none d op pl h k hk
  refine ⟨h1, ?_⟩
  rw [simpleServer_eq_map, h1]
  rfl

/-- Witness for C2 at a concrete frame cut one byte short of completion. -/
theorem decode_incomplete_needMoreData_witness :
    parseWebsocketFrame ([129, 2, 104, 105].take 3) = none ∧
    simpleServerDecodeFrame ([129, 2, 104, 105].take 3) = none :=
  decode_incomplete_needMoreData [129, 2, 104, 105] 1 [104, 105] (by decide) 3 (by decide)

/-- C3: round trip — for every valid frame (4-bit opcode, payload
representable in the 64-bit length field), decoding the encoder's output
returns the same opcode and payload unchanged; the encoder applies the
`<126` / `126` / `127` length-encoding rule and the decoder inverts it
(the encoder emits unmasked frames, so the mask bit plays no role). -/
theorem decode_encode_roundtrip (op : ℕ) (p : List ℕ) (hop : op < 16)
    (hp : p.length < 2 ^ 64) :
    parseWebsocketFrame (createWebsocketFrame op p) = some (op, p) :=
  parse_create op p hop hp

/-- Witness for C3 on a concrete text frame. -/
theorem decode_encode_roundtrip_witness :
    parseWebsocketFrame (createWebsocketFrame 1 [104, 105]) = some (1, [104, 105]) :=
  decode_encode_roundtrip 1 [104, 105] (by decide) (by decide)

/-- C4: masking involution — applying the XOR masking cycle
(byte `i` XOR-ed with `key[i % 4]`) twice with the same 4-byte key restores
every payload exactly. -/
theorem masking_involution (key p : List ℕ) (hk : key.length = 4) :
    maskCycle key 0 (maskCycle key 0 p) = p :=
  maskCycle_involutive key 0 p

/-- Witness for C4 at a concrete payload and key. -/
theorem masking_involution_witness :
    maskCycle [1, 2, 3, 4] 0 (maskCycle [1, 2, 3, 4] 0 [7, 8, 9, 10, 11]) = [7, 8, 9, 10, 11] :=
  masking_involution [1, 2, 3, 4] [7, 8, 9, 10, 11] (by decide)

set_option maxRecDepth 100000 in
/-- C5: the accept key is the pure function
`base64(sha1(key + "258EAFA5-E914-47DA-95CA-C5AB0DC85B11"))`; on the RFC
6455 test vector it yields exactly the canonical value, and all three
implementations in the repository (server, simple server, and the client's
verification) agree on every input key. -/
theorem accept_key_deterministic :
    createWebsocketAcceptKey "dGhlIHNhbXBsZSBub25jZQ==" = "s3pPLMBiTxaQ9kYGzzhZRbK+xOo=" ∧
    (∀ k : String, generateAcceptKey k = createWebsocketAcceptKey k) ∧
    (∀ k : String, clientExpectedAccept k = createWebsocketAcceptKey k) :=
  ⟨by decide, fun _ => rfl, fun _ => rfl⟩

set_option maxRecDepth 100000 in
/-- C6 counterexample: on a request carrying the key header in lowercase
(`sec-websocket-key: abc`), the header is present under some letter casing
(its lowercase form passes the case-insensitive test, and WS_Server's
handshake succeeds on exactly this request), yet `simple_ws_server`'s
handshake fails because its match is case-sensitive — so the claim that
the server-side handshake accepts any casing and fails exactly when no
casing matches is false for `simple_ws_server.py`. -/
theorem simple_handshake_case_sensitive_cex :
    ("sec-websocket-key: abc".data ∈
        splitLines ("GET / HTTP/1.1\r\nsec-websocket-key: abc\r\n\r\n").data) ∧
    lowerKeyLineTest ("sec-websocket-key: abc").data = true ∧
    simplePerformHandshake ("GET / HTTP/1.1\r\nsec-websocket-key: abc\r\n\r\n").data = none ∧
    performWebsocketHandshake ("GET / HTTP/1.1\r\nsec-websocket-key: abc\r\n\r\n").data ≠ none :=
  ⟨by decide, by decide, by decide, by decide⟩

/-- C6 (amended): WS_Server's key search matches the header
case-insensitively and comes up empty exactly when no line matches under
any letter casing; the handshake fails (returns `False`, no 101 sent)
exactly when the key search comes up empty or the extracted key strips to
the empty string (the `if not websocket_key:` guard); when a non-empty key
is found it replies with the literal `HTTP/1.1 101 Switching Protocols`
response text built around the computed accept key; the simple server's
handshake matches the header name case-sensitively, so it fails whenever
no line carries the exact spelling `Sec-WebSocket-Key:`. -/
theorem handshake_key_header_handling :
    (∀ request : List Char,
      findWebsocketKey request = none ↔
        ∀ line ∈ splitLines request, lowerKeyLineTest line = false) ∧
    (∀ request : List Char,
      performWebsocketHandshake request = none ↔
        (findWebsocketKey request = none ∨ findWebsocketKey request = some [])) ∧
    (∀ (request : List Char) (key : List Char), findWebsocketKey request = some key →
      key ≠ [] →
      performWebsocketHandshake request =
        some (("HTTP/1.1 101 Switching Protocols\r\nUpgrade: websocket\r\nConnection: Upgrade\r\nSec-WebSocket-Accept: ").data
          ++ (createWebsocketAcceptKey (String.mk key)).data ++ ("\r\n\r\n").data)) ∧
    (∀ request : List Char,
      (∀ line ∈ splitLines request, simpleKeyLineTest line = false) →
        simplePerformHandshake request = none) := by
  refine ⟨fun request => ?_, fun request => ?_, fun request key hk hkne => ?_,
    fun request hall => ?_⟩
  · constructor
    · intro hfk
      rcases hfind : (splitLines request).find? lowerKeyLineTest with _ | line
      · intro x hx
        have := List.find?_eq_none.mp hfind x hx
        simpa using this
      · exfalso
        unfold findWebsocketKey at hfk
        rw [hfind] at hfk
        have htest : lowerKeyLineTest line = true := List.find?_some hfind
        have hsome := keyLineTest_afterColon line htest
        rcases hac : afterColon line with _ | tail
        · rw [hac] at hsome; exact absurd hsome (by simp)
        · simp [hac] at hfk
    · intro hall
      unfold findWebsocketKey
      rw [List.find?_eq_none.mpr (fun x hx => by simp [hall x hx])]
      rfl
  · unfold performWebsocketHandshake
    rcases hfk : findWebsocketKey request with _ | key
    · simp
    · by_cases hke : key = []
      · subst hke; simp
      · simp [hke]
  · unfold performWebsocketHandshake
    rw [hk]
    simp [hkne]
  · unfold simplePerformHandshake simpleFindWebsocketKey
    rw [List.find?_eq_none.mpr (fun x hx => by simp [hall x hx])]
    rfl

set_option maxRecDepth 100000 in
/-- Witness for C6 (amended) on a concrete well-formed request. -/
theorem handshake_key_header_handling_witness :
    performWebsocketHandshake ("GET / HTTP/1.1\r\nSec-WebSocket-Key: abc\r\n\r\n").data =
      some (("HTTP/1.1 101 Switching Protocols\r\nUpgrade: websocket\r\nConnection: Upgrade\r\nSec-WebSocket-Accept: ").data
        ++ (createWebsocketAcceptKey (String.mk ("abc").data)).data ++ ("\r\n\r\n").data) :=
  handshake_key_header_handling.2.2.1 ("GET / HTTP/1.1\r\nSec-WebSocket-Key: abc\r\n\r\n").data
    ("abc").data (by decide) (by decide)

/-- C7 counterexample: on a ping frame with payload `"abc"`, the simple
server's dispatch merely logs the ping — the action taken is not a send of
the pong frame (or of anything else), so `simple_ws_server.py` does not
reply to pings. -/
theorem simple_server_ping_no_pong_cex :
    simpleHandleFrame 9 [97, 98, 99] = ServerAction.logPing ∧
    ServerAction.logPing ≠ ServerAction.sendFrame (createWebsocketFrame 10 [97, 98, 99]) := by
  decide

/-- C7 (amended): on every ping frame, WS_Server's dispatch immediately
sends back a pong frame carrying exactly the received payload (and that
frame decodes back to opcode `0xA` with the same payload); the simple
server's dispatch only logs the ping and sends nothing. -/
theorem ping_pong_reply (p : List ℕ) :
    handleFrameWS WS_OPCODE_PING p = ServerAction.sendFrame (createWebsocketFrame WS_OPCODE_PONG p) ∧
    (p.length < 2 ^ 64 →
      parseWebsocketFrame (createWebsocketFrame WS_OPCODE_PONG p) = some (WS_OPCODE_PONG, p)) ∧
    simpleHandleFrame 9 p = ServerAction.logPing :=
  ⟨rfl, fun hp => parse_create 10 p (by omega) hp, rfl⟩

/-- Witness for C7 (amended) at payload `"abc"`. -/
theorem ping_pong_reply_witness :
    parseWebsocketFrame (createWebsocketFrame WS_OPCODE_PONG [97, 98, 99]) =
      some (WS_OPCODE_PONG, [97, 98, 99]) :=
  (ping_pong_reply [97, 98, 99]).2.1 (by decide)

/-- C8 counterexample: a frame with the unknown opcode `0x3` decodes
structurally (length and payload extracted), but the simple server's
dispatch takes no action at all on it — it is silently ignored, not
reported. -/
theorem simple_server_unknown_opcode_ignored_cex :
    simpleServerDecodeFrame [131, 1, 7] = some ⟨1, 3, [7], 1⟩ ∧
    simpleHandleFrame 3 [7] = ServerAction.ignored ∧
    ServerAction.ignored ≠ ServerAction.warnUnknown 3 := by
  decide

/-- C8 (amended): for every opcode outside `{Text, Binary, Close, Ping,
Pong}` (including `0x0` continuation and `0x3`), the decoders still extract
length and payload structurally; WS_Server's dispatch reports the frame as
an unknown-opcode protocol violation, while the simple server's dispatch
falls through its `if/elif` chain and silently ignores it. -/
theorem unknown_opcode_dispatch (op : ℕ) (p : List ℕ)
    (h1 : op ≠ 1) (h2 : op ≠ 2) (h8 : op ≠ 8) (h9 : op ≠ 9) (h10 : op ≠ 10) :
    handleFrameWS op p = ServerAction.warnUnknown op ∧
    simpleHandleFrame op p = ServerAction.ignored ∧
    (op < 16 → p.length < 2 ^ 64 →
      parseWebsocketFrame (createWebsocketFrame op p) = some (op, p)) := by
  unfold handleFrameWS simpleHandleFrame WS_OPCODE_TEXT WS_OPCODE_BINARY WS_OPCODE_PING
    WS_OPCODE_PONG WS_OPCODE_CLOSE
  rw [if_neg h1, if_neg h2, if_neg h9, if_neg h10, if_neg h8,
    if_neg h1, if_neg h2, if_neg h8, if_neg h9, if_neg h10]
  exact ⟨rfl, rfl, fun hop hp => parse_create op p hop hp⟩

/-- Witness for C8 (amended) at the continuation-adjacent opcode `0x3`. -/
theorem unknown_opcode_dispatch_witness :
    handleFrameWS 3 [7] = ServerAction.warnUnknown 3 ∧
    simpleHandleFrame 3 [7] = ServerAction.ignored ∧
    parseWebsocketFrame (createWebsocketFrame 3 [7]) = some (3, [7]) := by
  have h := unknown_opcode_dispatch 3 [7] (by decide) (by decide) (by decide) (by decide)
    (by decide)
  exact ⟨h.1, h.2.1, h.2.2 (by decide) (by decide)⟩

/-- C9: registry discipline — registering the same connection twice equals
registering it once (set semantics, no duplicates); unregistering an absent
connection is a no-op and unregister is idempotent; and one handler run
performs exactly the events `[register, deregister]` when the handshake
succeeds (register exactly once, only after success; deregister
unconditionally at exit) and only the no-op `deregister` of the `finally`
block when it fails. -/
theorem registry_discipline :
    (∀ (s : Finset ℕ) (c : ℕ), registerClient (registerClient s c) c = registerClient s c) ∧
    (∀ (s : Finset ℕ) (c : ℕ), c ∉ s → unregisterClient s c = s) ∧
    (∀ (s : Finset ℕ) (c : ℕ),
      unregisterClient (unregisterClient s c) c = unregisterClient s c) ∧
    handleClientRegistryEvents true = [RegistryEvent.register, RegistryEvent.deregister] ∧
    handleClientRegistryEvents false = [RegistryEvent.deregister] :=
  ⟨fun s c => Finset.insert_idem c s, fun _ _ h => Finset.erase_eq_of_not_mem h,
    fun _ _ => Finset.erase_idem, rfl, rfl⟩

/-- Witness for C9: unregistering from an empty registry is a no-op. -/
theorem registry_discipline_witness : unregisterClient (∅ : Finset ℕ) 0 = ∅ :=
  registry_discipline.2.1 ∅ 0 (by decide)

/-- C10 counterexample: on the masked frame
`[0x81, 0x81, 5, 0, 0, 0, 0]` (mask key `[5,0,0,0]`, wire payload `[0]`,
true payload `[5]`), masking alters the bytes on the wire (`[0] ≠ [5]`),
yet the client decoder's payload (the byte at the mask-key position, `5`)
happens to coincide with the servers' unmasked payload `[5]` — so "differs
whenever masking alters the bytes" fails as a universal statement. -/
theorem client_masked_equal_payload_cex :
    parseWebsocketFrame [129, 129, 5, 0, 0, 0, 0] = some (1, [5]) ∧
    simpleClientDecodeFrame [129, 129, 5, 0, 0, 0, 0] = some ⟨1, 1, [5], 1⟩ ∧
    maskCycle [5, 0, 0, 0] 0 [5] = [0] ∧ ([0] : List ℕ) ≠ [5] := by
  decide

/-- C10 (amended): on every buffer whose mask bit is clear the three
decoders agree — the client decoder coincides with the simple server
decoder, and whenever `parse_websocket_frame` succeeds the simple server
decoder returns the same opcode and payload; on masked frames the client
decoder neither skips the mask key nor unmasks, so its payload can differ
from the servers' result, as on the concrete masked frame
`[0x81, 0x81, 1, 2, 3, 4, 0x68]` where the servers decode payload `[105]`
but the client returns `[1]` (the first mask-key byte). -/
theorem decoder_agreement (d : List ℕ) (hm : d.getD 1 0 < 128) :
    simpleClientDecodeFrame d = simpleServerDecodeFrame d ∧
    (∀ op pl, parseWebsocketFrame d = some (op, pl) →
      simpleServerDecodeFrame d = some ⟨d.getD 0 0 / 128 % 2, op, pl, pl.length⟩) ∧
    parseWebsocketFrame [129, 129, 1, 2, 3, 4, 104] = some (1, [105]) ∧
    simpleClientDecodeFrame [129, 129, 1, 2, 3, 4, 104] = some ⟨1, 1, [1], 1⟩ := by
  refine ⟨client_eq_server_unmasked d hm, fun op pl h => ?_, by decide, by decide⟩
  rw [simpleServer_eq_map, h]
  rfl

/-- Witness for C10 (amended) on a concrete unmasked text frame. -/
theorem decoder_agreement_witness :
    simpleClientDecodeFrame [129, 2, 104, 105] = simpleServerDecodeFrame [129, 2, 104, 105] ∧
    simpleServerDecodeFrame [129, 2, 104, 105] = some ⟨1, 1, [104, 105], 2⟩ := by
  have h := decoder_agreement [129, 2, 104, 105] (by decide)
  exact ⟨h.1, h.2.1 1 [104, 105] (by decide)⟩

end WsHub
